import Mathlib

/-!
Shallow embedding of the Storemaster stock-prediction service
(`src/ml/python-service/main.py`), a FastAPI module that loads a trained
classifier at startup and serves reorder predictions.

Real numbers carried by the service (prices, margins, probabilities) are
modelled as exact rationals; the loaded classifier ("model artifact") is
modelled as a structure of two fallible capabilities, `predict` and
`predict_proba`, matching the two method calls the handlers make.
-/

namespace Storemaster

/-- A value placed in a feature-row column: either numeric or a raw string
(categorical columns are passed unencoded). -/
inductive FeatureValue where
  | num (q : ℚ)
  | str (s : String)
deriving DecidableEq, Repr

/-- Input record for prediction, mirroring the pydantic `ProductData` model:
`product_id` optional pass-through, prices rational, `profit_margin`
optional, integer stock fields, three categorical strings (with pydantic
defaults `brand = "Generic"`, `supplier = "Default"` already applied). -/
structure ProductData where
  product_id : Option String
  cost_price : ℚ
  selling_price : ℚ
  profit_margin : Option ℚ
  reorder_frequency : ℤ
  current_stock : ℤ
  minimum_stock_level : ℤ
  category : String
  brand : String
  supplier : String
deriving DecidableEq, Repr

/-- The pydantic field constraints on `ProductData`:
`cost_price` and `selling_price` are `gt=0`, `reorder_frequency` is `ge=1`,
`current_stock` and `minimum_stock_level` are `ge=0`. The framework checks
these before the handler runs. -/
def ProductData.validb (d : ProductData) : Bool :=
  decide (0 < d.cost_price) && decide (0 < d.selling_price) &&
  decide (1 ≤ d.reorder_frequency) && decide (0 ≤ d.current_stock) &&
  decide (0 ≤ d.minimum_stock_level)

/-- The profit margin actually used by the handlers: the record's own value
when present, otherwise `(selling_price - cost_price) / cost_price * 100`
(lines 98-101 and 151-154 of `main.py`). -/
def resolveMargin (d : ProductData) : ℚ :=
  match d.profit_margin with
  | some m => m
  | none => (d.selling_price - d.cost_price) / d.cost_price * 100

/-- The single-row dataframe built by both handlers (lines 104-114 and
157-167): nine named columns in the literal order of the source dict,
with `profit_margin` renamed to the trained-schema label "Profit margin". -/
def prepareInput (d : ProductData) : List (String × FeatureValue) :=
  [("cost_price", .num d.cost_price),
   ("selling_price", .num d.selling_price),
   ("Profit margin", .num (resolveMargin d)),
   ("reorder_frequency", .num d.reorder_frequency),
   ("current_stock", .num d.current_stock),
   ("minimum_stock_level", .num d.minimum_stock_level),
   ("category", .str d.category),
   ("brand", .str d.brand),
   ("supplier", .str d.supplier)]

/-- The loaded model artifact: a runtime type tag (for `str(type(model))`)
and the two capabilities the handlers invoke. Each may fail (raise), which
the handlers catch; `predict` yields the class label for the single row,
`predict_proba` yields the list of class probabilities for it. -/
structure Model where
  typeTag : String
  predict : List (String × FeatureValue) → Except String ℤ
  predict_proba : List (String × FeatureValue) → Except String (List ℚ)

/-- Python's `max` over a list of probabilities: raises on an empty list. -/
def listMax : List ℚ → Except String ℚ
  | [] => .error "max() arg is an empty sequence"
  | x :: xs => .ok (xs.foldl max x)

/-- Python's `probabilities[i]`: raises `IndexError` when out of range. -/
def listGet (l : List ℚ) (i : ℕ) : Except String ℚ :=
  match l.get? i with
  | some x => .ok x
  | none => .error "list index out of range"

/-- Response of the `/predict` endpoint (`PredictionResponse`). -/
structure PredictionResponse where
  reorder_required : Bool
  confidence : ℚ
  probability_reorder : ℚ
  probability_no_reorder : ℚ
  model_version : String := "1.0.0"
deriving DecidableEq, Repr

/-- An `HTTPException`: status code plus human-readable detail. -/
structure HTTPError where
  status_code : ℕ
  detail : String
deriving DecidableEq, Repr

/-- Body of the `try` block of `/predict` (lines 96-126): derive the margin,
build the row, call the artifact, shape the response. Any failure is the
caught exception's message. -/
def predictBody (m : Model) (data : ProductData) :
    Except String PredictionResponse :=
  let input_data := prepareInput data
  match m.predict input_data with
  | .error e => .error e
  | .ok prediction =>
    match m.predict_proba input_data with
    | .error e => .error e
    | .ok probabilities =>
      match listMax probabilities with
      | .error e => .error e
      | .ok conf =>
        match listGet probabilities 1 with
        | .error e => .error e
        | .ok p1 =>
          match listGet probabilities 0 with
          | .error e => .error e
          | .ok p0 =>
            .ok { reorder_required := prediction != 0
                  confidence := conf
                  probability_reorder := p1
                  probability_no_reorder := p0 }

/-- The `/predict` handler `predict_reorder` (lines 79-132): 503 when no
model is loaded, otherwise run the body and turn any caught failure into a
500 with a "Prediction error" detail. -/
def predict_reorder (model : Option Model) (data : ProductData) :
    Except HTTPError PredictionResponse :=
  match model with
  | none => .error ⟨503, "Model not loaded. Please check server configuration."⟩
  | some m =>
    match predictBody m data with
    | .ok r => .ok r
    | .error e => .error ⟨500, "Prediction error: " ++ e⟩

/-- One element of the batch `predictions` list (lines 173-178): the reduced
per-record tuple, with `probability_no_reorder` omitted. -/
structure BatchEntry where
  product_id : Option String
  reorder_required : Bool
  confidence : ℚ
  probability_reorder : ℚ
deriving DecidableEq, Repr

/-- Response of `/batch-predict` (lines 180-184). -/
structure BatchResponse where
  predictions : List BatchEntry
  total_products : ℕ
  reorder_needed : ℕ
deriving DecidableEq, Repr

/-- One iteration of the batch loop (lines 149-178) for a single product:
derive margin, build row, call the artifact, build the reduced tuple. -/
def predictOne (m : Model) (product : ProductData) : Except String BatchEntry :=
  let input_data := prepareInput product
  match m.predict input_data with
  | .error e => .error e
  | .ok prediction =>
    match m.predict_proba input_data with
    | .error e => .error e
    | .ok probabilities =>
      match listMax probabilities with
      | .error e => .error e
      | .ok conf =>
        match listGet probabilities 1 with
        | .error e => .error e
        | .ok p1 =>
          .ok { product_id := product.product_id
                reorder_required := prediction != 0
                confidence := conf
                probability_reorder := p1 }

/-- The batch loop: sequential, aborting at the first failing record (the
whole `try` block fails, discarding any partial `results`). -/
def runBatch (m : Model) : List ProductData → Except String (List BatchEntry)
  | [] => .ok []
  | p :: ps =>
    match predictOne m p with
    | .error e => .error e
    | .ok r =>
      match runBatch m ps with
      | .error e => .error e
      | .ok rs => .ok (r :: rs)

/-- The `/batch-predict` handler `batch_predict` (lines 134-190): 503 when no
model is loaded; otherwise run the loop, and on success aggregate
`total_products = len(products)` and
`reorder_needed = sum(1 for r in results if r.reorder_required)`;
any caught failure becomes a single 500. -/
def batch_predict (model : Option Model) (products : List ProductData) :
    Except HTTPError BatchResponse :=
  match model with
  | none => .error ⟨503, "Model not loaded"⟩
  | some m =>
    match runBatch m products with
    | .ok results =>
      .ok { predictions := results
            total_products := products.length
            reorder_needed := (results.filter (fun r => r.reorder_required)).length }
    | .error e => .error ⟨500, "Batch prediction error: " ++ e⟩

/-- Response of the root `/` endpoint (lines 60-68). -/
structure RootResponse where
  service : String
  status : String
  model_loaded : Bool
  version : String
deriving DecidableEq, Repr

/-- The `/` handler `read_root`. -/
def read_root (model : Option Model) : RootResponse :=
  { service := "Stock Prediction ML Service"
    status := "running"
    model_loaded := model.isSome
    version := "1.0.0" }

/-- Response of `/health` (lines 70-77). -/
structure HealthResponse where
  status : String
  model_loaded : Bool
  model_path : String
deriving DecidableEq, Repr

/-- The `/health` handler `health_check`. -/
def health_check (model : Option Model) (modelPath : String) : HealthResponse :=
  { status := if model.isSome then "healthy" else "degraded"
    model_loaded := model.isSome
    model_path := modelPath }

/-- Response of `/model-info` (lines 199-214). -/
structure ModelInfoResponse where
  model_type : String
  numerical_features : List String
  categorical_features : List String
  accuracy : ℚ
  model_precision : ℚ
  model_recall : ℚ
  f1_score : ℚ
deriving DecidableEq, Repr

/-- The `/model-info` handler `get_model_info` (lines 192-219): 503 when no
model is loaded; otherwise the runtime type tag plus hardcoded feature-name
lists and performance constants. -/
def get_model_info (model : Option Model) : Except HTTPError ModelInfoResponse :=
  match model with
  | none => .error ⟨503, "Model not loaded"⟩
  | some m =>
    .ok { model_type := m.typeTag
          numerical_features :=
            ["cost_price", "selling_price", "Profit margin",
             "reorder_frequency", "current_stock", "minimum_stock_level"]
          categorical_features := ["category", "brand", "supplier"]
          accuracy := 99/100
          model_precision := 98/100
          model_recall := 97/100
          f1_score := 97/100 }

/-- The `/predict` request as seen from outside the process: the framework
runs pydantic validation first, rejecting invalid bodies with a 422 client
error before the handler is entered. -/
def handlePredictRequest (model : Option Model) (d : ProductData) :
    Except HTTPError PredictionResponse :=
  if d.validb then predict_reorder model d
  else .error ⟨422, "Unprocessable Entity: input failed schema validation"⟩

/-- Process-wide server state: the model slot, loaded once at startup, plus
the configured model path. Handlers only read it. -/
structure ServerState where
  model : Option Model
  model_path : String

/-- The `/predict` handler viewed as a state transformer, to express that it
does not write any process-wide state: the output state is the input state. -/
def predictStep (s : ServerState) (d : ProductData) :
    (Except HTTPError PredictionResponse) × ServerState :=
  (predict_reorder s.model d, s)

/-! ### Concrete fixtures used by witnesses and counterexamples -/

/-- A concrete artifact: label 1 and probabilities [3/10, 7/10] for every
row, with the runtime type tag a logistic-regression pickle would carry. -/
def constModel : Model :=
  { typeTag := "<class 'sklearn.linear_model._logistic.LogisticRegression'>"
    predict := fun _ => .ok 1
    predict_proba := fun _ => .ok [3/10, 7/10] }

/-- The spec's worked example: cost 10, selling 15, margin omitted. -/
def sampleProduct : ProductData :=
  { product_id := none
    cost_price := 10
    selling_price := 15
    profit_margin := none
    reorder_frequency := 30
    current_stock := 5
    minimum_stock_level := 10
    category := "Electronics"
    brand := "Generic"
    supplier := "Default" }

/-- A record that supplies its own profit margin. -/
def sampleProductWithMargin : ProductData :=
  { product_id := some "SKU-1"
    cost_price := 10
    selling_price := 15
    profit_margin := some 42
    reorder_frequency := 30
    current_stock := 5
    minimum_stock_level := 10
    category := "Electronics"
    brand := "Acme"
    supplier := "Default" }

/-! ### Claims -/

/-- C1: for every product record with `profit_margin` absent and
`cost_price > 0`, the predict pipeline derives the margin as
`(selling_price - cost_price) / cost_price * 100` and places exactly that
value in the feature row's "Profit margin" field. -/
theorem C1_profit_margin_derivation (d : ProductData)
    (hm : d.profit_margin = none) (hc : 0 < d.cost_price) :
    (prepareInput d).lookup "Profit margin"
      = some (.num ((d.selling_price - d.cost_price) / d.cost_price * 100)) := by
  simp [prepareInput, resolveMargin, hm, List.lookup]

/-- Witness for C1 at the spec's example: cost_price 10, selling_price 15,
margin omitted, yields "Profit margin" = 50. -/
theorem C1_profit_margin_derivation_witness :
    sampleProduct.profit_margin = none ∧ 0 < sampleProduct.cost_price ∧
    (prepareInput sampleProduct).lookup "Profit margin" = some (.num 50) := by
  refine ⟨rfl, by norm_num [sampleProduct], ?_⟩
  rw [C1_profit_margin_derivation sampleProduct rfl (by norm_num [sampleProduct])]
  norm_num [sampleProduct]

/-- C2: the record normalizer emits exactly nine fields in the fixed
training-time order; every input field value passes through unmodified
under its own name, except `profit_margin`, which appears only under the
literal label "Profit margin"; the categorical fields remain raw strings. -/
theorem C2_feature_row_shape (d : ProductData) :
    (prepareInput d).length = 9 ∧
    (prepareInput d).map Prod.fst =
      ["cost_price", "selling_price", "Profit margin", "reorder_frequency",
       "current_stock", "minimum_stock_level", "category", "brand",
       "supplier"] ∧
    (∀ m, d.profit_margin = some m →
        (prepareInput d).lookup "Profit margin" = some (.num m)) ∧
    (prepareInput d).lookup "profit_margin" = none ∧
    (prepareInput d).lookup "cost_price" = some (.num d.cost_price) ∧
    (prepareInput d).lookup "selling_price" = some (.num d.selling_price) ∧
    (prepareInput d).lookup "reorder_frequency"
      = some (.num (d.reorder_frequency : ℚ)) ∧
    (prepareInput d).lookup "current_stock"
      = some (.num (d.current_stock : ℚ)) ∧
    (prepareInput d).lookup "minimum_stock_level"
      = some (.num (d.minimum_stock_level : ℚ)) ∧
    (prepareInput d).lookup "category" = some (.str d.category) ∧
    (prepareInput d).lookup "brand" = some (.str d.brand) ∧
    (prepareInput d).lookup "supplier" = some (.str d.supplier) := by
  refine ⟨rfl, rfl, ?_, ?_, ?_, ?_, ?_, ?_, ?_, ?_, ?_, ?_⟩
  · intro m hm
    simp [prepareInput, resolveMargin, hm, List.lookup]
  all_goals simp [prepareInput, List.lookup]

/-- Witness for C2 at a record that supplies its own margin 42: nine
fields, and the value appears under "Profit margin" unmodified. -/
theorem C2_feature_row_shape_witness :
    (prepareInput sampleProductWithMargin).length = 9 ∧
    (prepareInput sampleProductWithMargin).lookup "Profit margin"
      = some (.num 42) := by
  have h := C2_feature_row_shape sampleProductWithMargin
  exact ⟨h.1, h.2.2.1 42 rfl⟩

/-- A record whose cost_price is near zero but strictly positive. -/
def nearZeroCostProduct : ProductData :=
  { product_id := none
    cost_price := 1/1000000000
    selling_price := 15
    profit_margin := none
    reorder_frequency := 30
    current_stock := 5
    minimum_stock_level := 10
    category := "Electronics"
    brand := "Generic"
    supplier := "Default" }

/-- A record with cost_price exactly zero. -/
def zeroCostProduct : ProductData :=
  { product_id := none
    cost_price := 0
    selling_price := 15
    profit_margin := none
    reorder_frequency := 30
    current_stock := 5
    minimum_stock_level := 10
    category := "Electronics"
    brand := "Generic"
    supplier := "Default" }

/-- C3 counterexample: a near-zero but strictly positive cost_price of
10⁻⁹ passes schema validation, the margin derivation does NOT fail — it
places the huge finite value 1499999999900 in the feature row — and the
request completes successfully instead of returning a client error. -/
theorem C3_counterexample_near_zero_cost_succeeds :
    nearZeroCostProduct.validb = true ∧
    (prepareInput nearZeroCostProduct).lookup "Profit margin"
      = some (.num 1499999999900) ∧
    handlePredictRequest (some constModel) nearZeroCostProduct =
      .ok { reorder_required := true
            confidence := 7/10
            probability_reorder := 7/10
            probability_no_reorder := 3/10 } := by
  have hv : nearZeroCostProduct.validb = true := by
    norm_num [ProductData.validb, nearZeroCostProduct]
  refine ⟨hv, ?_, ?_⟩
  · simp only [prepareInput, resolveMargin, nearZeroCostProduct, List.lookup,
      String.reduceBEq]
    norm_num
  · rw [handlePredictRequest, hv]
    norm_num [predict_reorder, predictBody, constModel, prepareInput,
      resolveMargin, nearZeroCostProduct, listMax, listGet, max_def,
      List.foldl]

/-- C3 amended: a request with nonpositive cost_price — in particular
zero — is rejected by the framework's schema validation with a 422 client
error before the handler's margin derivation runs, so the division is
never executed and nothing crashes. (Strictly positive near-zero values,
however, pass validation and the derivation succeeds; see the
counterexample.) -/
theorem C3_zero_cost_rejected_by_validation (model : Option Model)
    (d : ProductData) (hc : d.cost_price ≤ 0) :
    handlePredictRequest model d =
      .error ⟨422, "Unprocessable Entity: input failed schema validation"⟩ := by
  have hv : d.validb = false := by
    simp [ProductData.validb, decide_eq_false (not_lt.mpr hc)]
  simp [handlePredictRequest, hv]

/-- Witness for the amended C3 at cost_price = 0: the request is refused
with the 422 client error. -/
theorem C3_zero_cost_rejected_by_validation_witness :
    zeroCostProduct.cost_price ≤ 0 ∧
    handlePredictRequest (some constModel) zeroCostProduct =
      .error ⟨422, "Unprocessable Entity: input failed schema validation"⟩ :=
  ⟨by norm_num [zeroCostProduct],
   C3_zero_cost_rejected_by_validation (some constModel) zeroCostProduct
     (by norm_num [zeroCostProduct])⟩

/-- Helper: the batch loop yields exactly one entry per product whenever it
succeeds. -/
theorem runBatch_length (m : Model) (ps : List ProductData) :
    ∀ rs, runBatch m ps = .ok rs → rs.length = ps.length := by
  induction ps with
  | nil =>
    intro rs h
    simp [runBatch] at h
    simp [← h]
  | cons p ps ih =>
    intro rs h
    unfold runBatch at h
    cases hpr : predictOne m p with
    | error e => rw [hpr] at h; simp at h
    | ok r =>
      rw [hpr] at h
      cases hb : runBatch m ps with
      | error e => rw [hb] at h; simp at h
      | ok rs2 =>
        rw [hb] at h
        injection h with h2
        subst h2
        simp [ih rs2 hb]

/-- Helper: a successful per-record prediction passes the product id
through into the reduced batch tuple. -/
theorem predictOne_product_id (m : Model) (p : ProductData)
    (r : BatchEntry) (h : predictOne m p = .ok r) :
    r.product_id = p.product_id := by
  simp only [predictOne] at h
  repeat' split at h
  all_goals first
    | (injection h with h5; subst h5; rfl)
    | simp at h

/-- Helper: on success the batch loop's i-th entry is the per-record
prediction of the i-th product. -/
theorem runBatch_get (m : Model) (ps : List ProductData) :
    ∀ rs, runBatch m ps = .ok rs →
      ∀ i (hi : i < ps.length) (hi2 : i < rs.length),
        predictOne m (ps.get ⟨i, hi⟩) = .ok (rs.get ⟨i, hi2⟩) := by
  induction ps with
  | nil =>
    intro rs h i hi hi2
    exact absurd hi (by simp)
  | cons p ps ih =>
    intro rs h i hi hi2
    unfold runBatch at h
    cases hpr : predictOne m p with
    | error e => rw [hpr] at h; simp at h
    | ok r =>
      rw [hpr] at h
      cases hb : runBatch m ps with
      | error e => rw [hb] at h; simp at h
      | ok rs2 =>
        rw [hb] at h
        injection h with h2
        subst h2
        cases i with
        | zero => exact hpr
        | succ j =>
          exact ih rs2 hb j (Nat.lt_of_succ_lt_succ hi)
            (Nat.lt_of_succ_lt_succ hi2)

/-- C4: with a model loaded, a batch request either succeeds with results
for all submitted records, or fails as a whole with a single 500 error —
never a mixture of partial results and an error, and never an unhandled
fault. -/
theorem C4_batch_all_or_nothing (m : Model) (products : List ProductData) :
    (∃ resp, batch_predict (some m) products = .ok resp ∧
        resp.predictions.length = products.length) ∨
    (∃ e, batch_predict (some m) products = .error e ∧
        e.status_code = 500) := by
  simp only [batch_predict]
  cases hb : runBatch m products with
  | ok results => exact Or.inl ⟨_, rfl, runBatch_length m products results hb⟩
  | error e => exact Or.inr ⟨_, rfl, rfl⟩

/-- C5: when the artifact yields label `pred` and a two-element probability
vector [p0, p1] ordered [no-reorder, reorder] and summing to 1, the
response takes probability_no_reorder from the first element and
probability_reorder from the second, their sum is within 1e-6 of 1,
confidence is the maximum of the two, and reorder_required is the label
coerced to boolean. -/
theorem C5_probability_contract (m : Model) (d : ProductData) (pred : ℤ)
    (p0 p1 : ℚ)
    (hpred : m.predict (prepareInput d) = .ok pred)
    (hp : m.predict_proba (prepareInput d) = .ok [p0, p1])
    (hsum : p0 + p1 = 1) :
    predict_reorder (some m) d =
      .ok { reorder_required := pred != 0
            confidence := max p1 p0
            probability_reorder := p1
            probability_no_reorder := p0 } ∧
    |p1 + p0 - 1| ≤ 1/1000000 := by
  constructor
  · simp [predict_reorder, predictBody, hpred, hp, listMax, listGet,
      List.foldl, max_comm]
  · rw [add_comm, hsum]
    norm_num

/-- Witness for C5 with the constant artifact on the sample product:
label 1, probabilities [3/10, 7/10]. -/
theorem C5_probability_contract_witness :
    constModel.predict (prepareInput sampleProduct) = .ok 1 ∧
    constModel.predict_proba (prepareInput sampleProduct)
      = .ok [3/10, 7/10] ∧
    (3 : ℚ)/10 + 7/10 = 1 ∧
    predict_reorder (some constModel) sampleProduct =
      .ok { reorder_required := (1 : ℤ) != 0
            confidence := max ((7 : ℚ)/10) (3/10)
            probability_reorder := 7/10
            probability_no_reorder := 3/10 } := by
  have h := C5_probability_contract constModel sampleProduct 1 (3/10) (7/10)
    rfl rfl (by norm_num)
  exact ⟨rfl, rfl, by norm_num, h.1⟩

/-- C6: a fully successful batch response contains one prediction per
submitted record, in input order — the i-th entry is exactly the reduced
tuple computed from the i-th record, with product_id passed through —
total_products equals the number of submitted records, and reorder_needed
counts the entries whose reorder_required flag is true. -/
theorem C6_batch_success_shape (m : Model) (products : List ProductData)
    (resp : BatchResponse)
    (h : batch_predict (some m) products = .ok resp) :
    resp.predictions.length = products.length ∧
    resp.total_products = products.length ∧
    resp.reorder_needed =
      (resp.predictions.filter (fun r => r.reorder_required)).length ∧
    ∀ i (hi : i < products.length) (hi2 : i < resp.predictions.length),
      predictOne m (products.get ⟨i, hi⟩)
        = .ok (resp.predictions.get ⟨i, hi2⟩) ∧
      (resp.predictions.get ⟨i, hi2⟩).product_id
        = (products.get ⟨i, hi⟩).product_id := by
  simp only [batch_predict] at h
  cases hb : runBatch m products with
  | error e => rw [hb] at h; simp at h
  | ok results =>
    rw [hb] at h
    injection h with h2
    subst h2
    refine ⟨runBatch_length m products results hb, rfl, rfl, ?_⟩
    intro i hi hi2
    have hone := runBatch_get m products results hb i hi hi2
    exact ⟨hone, predictOne_product_id m _ _ hone⟩

/-- A concrete artifact that orders a reorder exactly when the row's
current-stock column is below its minimum-stock-level column. -/
def varyModel : Model :=
  { typeTag := "<class 'sklearn.linear_model._logistic.LogisticRegression'>"
    predict := fun row =>
      match row with
      | [_, _, _, _, (_, .num c), (_, .num mn), _, _, _] =>
        .ok (if c < mn then 1 else 0)
      | _ => .error "could not convert row"
    predict_proba := fun row =>
      match row with
      | [_, _, _, _, (_, .num c), (_, .num mn), _, _, _] =>
        .ok (if c < mn then [1/4, 3/4] else [4/5, 1/5])
      | _ => .error "could not convert row" }

/-- Batch fixture: stock 2 below minimum 5, so a reorder is due. -/
def prodA : ProductData :=
  { product_id := some "A"
    cost_price := 10
    selling_price := 15
    profit_margin := none
    reorder_frequency := 30
    current_stock := 2
    minimum_stock_level := 5
    category := "Electronics"
    brand := "Generic"
    supplier := "Default" }

/-- Batch fixture: stock 9 above minimum 5, no reorder. -/
def prodB : ProductData :=
  { product_id := some "B"
    cost_price := 20
    selling_price := 30
    profit_margin := some 50
    reorder_frequency := 14
    current_stock := 9
    minimum_stock_level := 5
    category := "Grocery"
    brand := "Acme"
    supplier := "Main" }

/-- Batch fixture: stock 1 below minimum 4, reorder due. -/
def prodC : ProductData :=
  { product_id := some "C"
    cost_price := 5
    selling_price := 8
    profit_margin := none
    reorder_frequency := 7
    current_stock := 1
    minimum_stock_level := 4
    category := "Stationery"
    brand := "Generic"
    supplier := "Default" }

/-- The spec's batch scenario: three records, two requiring reorder. -/
def batch3 : List ProductData := [prodA, prodB, prodC]

/-- The expected response for `batch3` under `varyModel`. -/
def batch3resp : BatchResponse :=
  { predictions :=
      [{ product_id := some "A"
         reorder_required := true
         confidence := 3/4
         probability_reorder := 3/4 },
       { product_id := some "B"
         reorder_required := false
         confidence := 4/5
         probability_reorder := 1/5 },
       { product_id := some "C"
         reorder_required := true
         confidence := 3/4
         probability_reorder := 3/4 }]
    total_products := 3
    reorder_needed := 2 }

/-- Witness for C6: a batch of three records of which two need reorder
yields three predictions in order, total_products 3, reorder_needed 2. -/
theorem C6_batch_success_shape_witness :
    batch_predict (some varyModel) batch3 = .ok batch3resp ∧
    batch3resp.predictions.length = 3 ∧
    batch3resp.total_products = 3 ∧
    batch3resp.reorder_needed = 2 := by
  have hb : batch_predict (some varyModel) batch3 = .ok batch3resp := by
    simp only [batch_predict, runBatch, predictOne, prepareInput,
      resolveMargin, listMax, listGet, varyModel, batch3, prodA, prodB,
      prodC, batch3resp, List.foldl, max_def]
    norm_num
  have h := C6_batch_success_shape varyModel batch3 batch3resp hb
  refine ⟨hb, h.1, ?_, ?_⟩
  · rw [h.2.1]; rfl
  · rw [h.2.2.1]; rfl

/-- C7: in degraded mode (no artifact loaded) the prediction endpoints
immediately return the 503 unavailable-model error for every input, and
model-info likewise refuses, while /health still succeeds reporting
"degraded" with model_loaded = false and / still returns its normal
success body. -/
theorem C7_degraded_mode (mp : String) :
    (∀ d, predict_reorder none d =
        .error ⟨503, "Model not loaded. Please check server configuration."⟩) ∧
    (∀ ps, batch_predict none ps = .error ⟨503, "Model not loaded"⟩) ∧
    get_model_info none = .error ⟨503, "Model not loaded"⟩ ∧
    health_check none mp =
      { status := "degraded", model_loaded := false, model_path := mp } ∧
    read_root none =
      { service := "Stock Prediction ML Service"
        status := "running"
        model_loaded := false
        version := "1.0.0" } :=
  ⟨fun _ => rfl, fun _ => rfl, rfl, rfl, rfl⟩

/-- C8: the predict handler is deterministic and mutates no process-wide
state: from any server state, running it twice on the same input yields
identical responses, and the state observable after each call is the
starting state. -/
theorem C8_predict_deterministic_stateless (s : ServerState)
    (d : ProductData) :
    (predictStep s d).1 = (predictStep (predictStep s d).2 d).1 ∧
    (predictStep s d).2 = s ∧
    (predictStep (predictStep s d).2 d).2 = s :=
  ⟨rfl, rfl, rfl⟩

/-- C9: with an artifact loaded, /model-info returns the artifact's runtime
type tag together with the fixed constant feature-name lists and the fixed
constant performance block — nothing besides the type tag depends on the
artifact; with no artifact it returns a 503 error. -/
theorem C9_model_info_constants (m : Model) :
    get_model_info (some m) =
      .ok { model_type := m.typeTag
            numerical_features :=
              ["cost_price", "selling_price", "Profit margin",
               "reorder_frequency", "current_stock", "minimum_stock_level"]
            categorical_features := ["category", "brand", "supplier"]
            accuracy := 99/100
            model_precision := 98/100
            model_recall := 97/100
            f1_score := 97/100 } ∧
    get_model_info none = .error ⟨503, "Model not loaded"⟩ :=
  ⟨rfl, rfl⟩

/-- C10: with an artifact loaded, a batch-predict call on the empty list
succeeds and returns no predictions, total_products 0, reorder_needed 0. -/
theorem C10_empty_batch (m : Model) :
    batch_predict (some m) [] =
      .ok { predictions := [], total_products := 0, reorder_needed := 0 } :=
  rfl

end Storemaster
